import Mathlib

/-
Verification of the legacy device manager
(src/dragonball/src/device_manager/legacy.rs).

The Rust code is embedded shallowly: OS collaborators (eventfd creation and
duplication, bus registration, irqfd binding) are modelled as deterministic
oracles reading scripted results from an explicit World value, which also
logs every bus registration and interrupt binding.  Rust panics (unwrap on
None) are modelled by a dedicated Outcome constructor.
-/

namespace Legacy

/-- Model of std::io::Error carried by Error::EventFd. -/
structure IoError where
  code : Nat
deriving DecidableEq, Repr

/-- Model of dbs_device::device_manager::Error carried by Error::BusError. -/
structure IoManagerError where
  code : Nat
deriving DecidableEq, Repr

/-- Model of vmm_sys_util::errno::Error carried by Error::IrqManager. -/
structure ErrnoError where
  code : Nat
deriving DecidableEq, Repr

/-- The error enum of legacy.rs: BusError, EventFd, IrqManager. -/
inductive Error where
  | BusError (e : IoManagerError)
  | EventFd (e : IoError)
  | IrqManager (e : ErrnoError)
deriving DecidableEq, Repr

/-- An eventfd: a descriptor number plus the identity of the underlying OS
signal object.  Duplication produces a fresh descriptor with the same
signal identity. -/
structure EventFd where
  fd : Nat
  signal : Nat
  nonblocking : Bool
deriving DecidableEq, Repr

/-- Model of dbs_device::resources::Resource, restricted to the variants
this file uses: a PIO address range and a legacy interrupt line. -/
inductive Resource where
  | PioAddressRange (base : Nat) (size : Nat)
  | LegacyIrq (irq : Nat)
deriving DecidableEq, Repr

/-- Model of dbs_device::resources::DeviceResources: a set of resources. -/
structure DeviceResources where
  resources : List Resource
deriving DecidableEq, Repr

/-- DeviceResources::get_all_resources. -/
def DeviceResources.get_all_resources (r : DeviceResources) : List Resource :=
  r.resources

/-- DeviceResources::get_legacy_irq: the first legacy irq in the set. -/
def DeviceResources.get_legacy_irq (r : DeviceResources) : Option Nat :=
  r.resources.findSome? fun res =>
    match res with
    | Resource.LegacyIrq irq => some irq
    | _ => none

/-- The device objects constructed by the manager.  SerialDevice::new and
I8042Device::new receive an eventfd (the serial device directly, the i8042
device via EventFdTrigger::new); RTCDevice::new receives nothing. -/
inductive Device where
  | serial (trigger : EventFd)
  | i8042 (trigger : EventFd)
  | rtc
deriving DecidableEq, Repr

/-- One bus registration: the device handle and the resources it reserved. -/
structure BusRegistration where
  device : Device
  resources : List Resource
deriving DecidableEq, Repr

/-- The model of a kvm_ioctls::VmFd handle. -/
structure VmFd where
  id : Nat
deriving DecidableEq, Repr

/-- The world threaded through the embedding: fresh-descriptor and
fresh-signal counters, scripted results for each collaborator (the head of
each list is consumed by the next call of that collaborator; an empty list
or a head of Option.none means the call succeeds), and logs of every bus
registration and interrupt binding performed. -/
structure World where
  nextFd : Nat
  nextSignal : Nat
  fdNewResults : List (Option IoError)
  fdCloneResults : List (Option IoError)
  busResults : List (Option IoManagerError)
  irqResults : List (Option ErrnoError)
  busRegistrations : List BusRegistration
  irqBindings : List (EventFd × Nat)
deriving DecidableEq, Repr

/-- The world in which every collaborator call succeeds and no resource has
been allocated yet. -/
def cleanWorld : World :=
  { nextFd := 0, nextSignal := 0, fdNewResults := [], fdCloneResults := [],
    busResults := [], irqResults := [], busRegistrations := [], irqBindings := [] }

/-- EventFd::new(libc::EFD_NONBLOCK): allocates a fresh descriptor over a
fresh underlying signal, or fails with the scripted io error. -/
def EventFd.new (nonblocking : Bool) (w : World) : Except IoError (EventFd × World) :=
  match w.fdNewResults with
  | some e :: _ => Except.error e
  | _ =>
    Except.ok
      ({ fd := w.nextFd, signal := w.nextSignal, nonblocking := nonblocking },
       { w with nextFd := w.nextFd + 1, nextSignal := w.nextSignal + 1,
                fdNewResults := w.fdNewResults.tail })

/-- EventFd::try_clone: allocates a fresh descriptor over the same
underlying signal, or fails with the scripted io error. -/
def EventFd.tryClone (ev : EventFd) (w : World) : Except IoError (EventFd × World) :=
  match w.fdCloneResults with
  | some e :: _ => Except.error e
  | _ =>
    Except.ok
      ({ fd := w.nextFd, signal := ev.signal, nonblocking := ev.nonblocking },
       { w with nextFd := w.nextFd + 1, fdCloneResults := w.fdCloneResults.tail })

/-- IoManager::register_device_io: on success the registration is appended
to the bus log; on the scripted failure nothing is registered. -/
def registerDeviceIo (w : World) (d : Device) (rs : List Resource) :
    Except IoManagerError World :=
  match w.busResults with
  | some e :: _ => Except.error e
  | _ =>
    Except.ok
      { w with busResults := w.busResults.tail,
               busRegistrations := w.busRegistrations ++ [⟨d, rs⟩] }

/-- VmFd::register_irqfd: on success the binding of the eventfd to the irq
line is appended to the binding log. -/
def registerIrqfd (w : World) (_fd : VmFd) (ev : EventFd) (irq : Nat) :
    Except ErrnoError World :=
  match w.irqResults with
  | some e :: _ => Except.error e
  | _ =>
    Except.ok
      { w with irqResults := w.irqResults.tail,
               irqBindings := w.irqBindings ++ [(ev, irq)] }

/-- const I8042_DATA_PORT: u16 = 0x60. -/
def I8042_DATA_PORT : Nat := 0x60

namespace x86_64

/-- pub(crate) const COM1_IRQ: u32 = 4. -/
def COM1_IRQ : Nat := 4

/-- pub(crate) const COM1_PORT1: u16 = 0x3f8. -/
def COM1_PORT1 : Nat := 0x3f8

/-- pub(crate) const COM2_IRQ: u32 = 3. -/
def COM2_IRQ : Nat := 3

/-- pub(crate) const COM2_PORT1: u16 = 0x2f8. -/
def COM2_PORT1 : Nat := 0x2f8

/-- The x86_64 LegacyDeviceManager struct: the i8042 reset eventfd plus the
two serial devices with their private eventfds. -/
structure LegacyDeviceManager where
  i8042_reset_eventfd : EventFd
  com1_device : Device
  _com1_eventfd : EventFd
  com2_device : Device
  _com2_eventfd : EventFd
deriving DecidableEq, Repr

/-- x86_64 LegacyDeviceManager::create_com_device: create an eventfd, build
a serial device around a try_clone of it, register an 8-unit PIO range at
port_base on the bus, and, when a vm fd is supplied, bind the original
eventfd to the irq line. -/
def create_com_device (w : World) (vm_fd : Option VmFd) (irq : Nat) (port_base : Nat) :
    Except Error ((Device × EventFd) × World) :=
  match EventFd.new true w with
  | Except.error e => Except.error (Error.EventFd e)
  | Except.ok (eventfd, w1) =>
    match eventfd.tryClone w1 with
    | Except.error e => Except.error (Error.EventFd e)
    | Except.ok (dup, w2) =>
      let device := Device.serial dup
      match registerDeviceIo w2 device [Resource.PioAddressRange port_base 0x8] with
      | Except.error e => Except.error (Error.BusError e)
      | Except.ok w3 =>
        match vm_fd with
        | some fd =>
          match registerIrqfd w3 fd eventfd irq with
          | Except.error e => Except.error (Error.IrqManager e)
          | Except.ok w4 => Except.ok ((device, eventfd), w4)
        | none => Except.ok ((device, eventfd), w3)

/-- x86_64 LegacyDeviceManager::create_manager: com1, then com2, then the
i8042 device wrapping a try_clone of the exit eventfd, registered over a
5-unit PIO range at I8042_DATA_PORT. -/
def create_manager (w : World) (vm_fd : Option VmFd) :
    Except Error (LegacyDeviceManager × World) :=
  match create_com_device w vm_fd COM1_IRQ COM1_PORT1 with
  | Except.error e => Except.error e
  | Except.ok ((com1_device, com1_eventfd), w1) =>
    match create_com_device w1 vm_fd COM2_IRQ COM2_PORT1 with
    | Except.error e => Except.error e
    | Except.ok ((com2_device, com2_eventfd), w2) =>
      match EventFd.new true w2 with
      | Except.error e => Except.error (Error.EventFd e)
      | Except.ok (exit_evt, w3) =>
        match exit_evt.tryClone w3 with
        | Except.error e => Except.error (Error.EventFd e)
        | Except.ok (exit_dup, w4) =>
          let i8042_device := Device.i8042 exit_dup
          match registerDeviceIo w4 i8042_device
              [Resource.PioAddressRange I8042_DATA_PORT 0x5] with
          | Except.error e => Except.error (Error.BusError e)
          | Except.ok w5 =>
            Except.ok
              ({ i8042_reset_eventfd := exit_evt,
                 com1_device := com1_device, _com1_eventfd := com1_eventfd,
                 com2_device := com2_device, _com2_eventfd := com2_eventfd }, w5)

/-- x86_64 LegacyDeviceManager::get_reset_eventfd: try_clone of the stored
i8042 reset eventfd, failures wrapped in Error::EventFd.  The manager is
taken immutably (the Rust method takes a shared reference), so the retained
notifier cannot change. -/
def LegacyDeviceManager.get_reset_eventfd (m : LegacyDeviceManager) (w : World) :
    Except Error (EventFd × World) :=
  match m.i8042_reset_eventfd.tryClone w with
  | Except.error e => Except.error (Error.EventFd e)
  | Except.ok (dup, w1) => Except.ok (dup, w1)

/-- LegacyDeviceManager::get_com1_serial: a clone of the shared handle. -/
def LegacyDeviceManager.get_com1_serial (m : LegacyDeviceManager) : Device :=
  m.com1_device

/-- LegacyDeviceManager::get_com2_serial: a clone of the shared handle. -/
def LegacyDeviceManager.get_com2_serial (m : LegacyDeviceManager) : Device :=
  m.com2_device

end x86_64

/-- Result of an aarch64 construction step: success, a returned Error, or a
Rust panic (unwrap on None). -/
inductive Outcome (α : Type) where
  | ok (a : α)
  | err (e : Error)
  | panic
deriving DecidableEq, Repr

namespace aarch64

/-- pub const COM1: the com1 resource-map key. -/
def COM1 : String := "com1"

/-- pub const COM2: the com2 resource-map key. -/
def COM2 : String := "com2"

/-- pub const RTC: the rtc resource-map key. -/
def RTC : String := "rtc"

/-- HashMap::get on the resource map, modelled over an association list. -/
def mapGet (m : List (String × DeviceResources)) (k : String) : Option DeviceResources :=
  (m.find? fun p => p.1 == k).map Prod.snd

/-- The aarch64 LegacyDeviceManager struct: the rtc device and its eventfd
plus the two serial devices with their private eventfds. -/
structure LegacyDeviceManager where
  _rtc_device : Device
  _rtc_eventfd : EventFd
  com1_device : Device
  _com1_eventfd : EventFd
  com2_device : Device
  _com2_eventfd : EventFd
deriving DecidableEq, Repr

/-- aarch64 LegacyDeviceManager::create_com_device: create an eventfd,
build a serial device around a try_clone of it, register all resources of
the supplied descriptor set on the bus, and, when a vm fd is supplied, bind
the eventfd to resources.get_legacy_irq().unwrap() — a panic when the
descriptor set has no legacy irq. -/
def create_com_device (w : World) (vm_fd : Option VmFd) (resources : DeviceResources) :
    Outcome ((Device × EventFd) × World) :=
  match EventFd.new true w with
  | Except.error e => Outcome.err (Error.EventFd e)
  | Except.ok (eventfd, w1) =>
    match eventfd.tryClone w1 with
    | Except.error e => Outcome.err (Error.EventFd e)
    | Except.ok (dup, w2) =>
      let device := Device.serial dup
      match registerDeviceIo w2 device resources.get_all_resources with
      | Except.error e => Outcome.err (Error.BusError e)
      | Except.ok w3 =>
        match vm_fd with
        | some fd =>
          match resources.get_legacy_irq with
          | none => Outcome.panic
          | some irq =>
            match registerIrqfd w3 fd eventfd irq with
            | Except.error e => Outcome.err (Error.IrqManager e)
            | Except.ok w4 => Outcome.ok ((device, eventfd), w4)
        | none => Outcome.ok ((device, eventfd), w3)

/-- aarch64 LegacyDeviceManager::create_rtc_device: create an eventfd,
build the rtc device with RTCDevice::new() — which receives no eventfd —
register all resources of the descriptor set, and, when a vm fd is
supplied, bind the eventfd to get_legacy_irq().unwrap(). -/
def create_rtc_device (w : World) (vm_fd : Option VmFd) (resources : DeviceResources) :
    Outcome ((Device × EventFd) × World) :=
  match EventFd.new true w with
  | Except.error e => Outcome.err (Error.EventFd e)
  | Except.ok (eventfd, w1) =>
    let device := Device.rtc
    match registerDeviceIo w1 device resources.get_all_resources with
    | Except.error e => Outcome.err (Error.BusError e)
    | Except.ok w2 =>
      match vm_fd with
      | some fd =>
        match resources.get_legacy_irq with
        | none => Outcome.panic
        | some irq =>
          match registerIrqfd w2 fd eventfd irq with
          | Except.error e => Outcome.err (Error.IrqManager e)
          | Except.ok w3 => Outcome.ok ((device, eventfd), w3)
      | none => Outcome.ok ((device, eventfd), w2)

/-- aarch64 LegacyDeviceManager::create_manager: looks up com1, com2 and
rtc in the resource map with resources.get(name).unwrap() — a panic when a
name is missing — and builds the three devices in that order. -/
def create_manager (w : World) (vm_fd : Option VmFd)
    (resources : List (String × DeviceResources)) :
    Outcome (LegacyDeviceManager × World) :=
  match mapGet resources COM1 with
  | none => Outcome.panic
  | some r1 =>
    match create_com_device w vm_fd r1 with
    | Outcome.err e => Outcome.err e
    | Outcome.panic => Outcome.panic
    | Outcome.ok ((com1_device, com1_eventfd), w1) =>
      match mapGet resources COM2 with
      | none => Outcome.panic
      | some r2 =>
        match create_com_device w1 vm_fd r2 with
        | Outcome.err e => Outcome.err e
        | Outcome.panic => Outcome.panic
        | Outcome.ok ((com2_device, com2_eventfd), w2) =>
          match mapGet resources RTC with
          | none => Outcome.panic
          | some r3 =>
            match create_rtc_device w2 vm_fd r3 with
            | Outcome.err e => Outcome.err e
            | Outcome.panic => Outcome.panic
            | Outcome.ok ((rtc_device, rtc_eventfd), w3) =>
              Outcome.ok
                ({ _rtc_device := rtc_device, _rtc_eventfd := rtc_eventfd,
                   com1_device := com1_device, _com1_eventfd := com1_eventfd,
                   com2_device := com2_device, _com2_eventfd := com2_eventfd }, w3)

end aarch64

/-- Two address ranges are disjoint. -/
def rangesDisjoint (b1 s1 b2 s2 : Nat) : Prop :=
  b1 + s1 ≤ b2 ∨ b2 + s2 ≤ b1

instance (b1 s1 b2 s2 : Nat) : Decidable (rangesDisjoint b1 s1 b2 s2) := by
  unfold rangesDisjoint; infer_instance

/-- The script after is what remains of the script before once a prefix of
successful (Option.none) results has been consumed. -/
def consumed {α : Type} (before after : List (Option α)) : Prop :=
  ∃ k, before.drop k = after ∧ ∀ x ∈ before.take k, x = Option.none

/-- Every script of the world before has only been consumed, success by
success, to give the corresponding script of the world after. -/
def consumedAll (w w2 : World) : Prop :=
  consumed w.fdNewResults w2.fdNewResults ∧
  consumed w.fdCloneResults w2.fdCloneResults ∧
  consumed w.busResults w2.busResults ∧
  consumed w.irqResults w2.irqResults

/-- The error value wraps, with the constructor of the matching kind, an
error scripted for the corresponding collaborator of this world: EventFd
wraps an eventfd creation or duplication failure, BusError a bus
registration failure, IrqManager an interrupt binding failure. -/
def errorFromWorld (w : World) (e : Error) : Prop :=
  match e with
  | Error.EventFd io =>
      Option.some io ∈ w.fdNewResults ∨ Option.some io ∈ w.fdCloneResults
  | Error.BusError b => Option.some b ∈ w.busResults
  | Error.IrqManager ir => Option.some ir ∈ w.irqResults

instance (w : World) (e : Error) : Decidable (errorFromWorld w e) := by
  cases e <;> (unfold errorFromWorld; infer_instance)

/-- All collaborator scripts of the world are empty: every call succeeds. -/
def cleanScripts (w : World) : Prop :=
  w.fdNewResults = [] ∧ w.fdCloneResults = [] ∧
  w.busResults = [] ∧ w.irqResults = []

instance (w : World) : Decidable (cleanScripts w) := by
  unfold cleanScripts; infer_instance

/-- The device object wraps a duplicate of the eventfd: a distinct
descriptor over the same underlying signal.  The rtc device wraps no
eventfd at all. -/
def deviceWrapsDuplicate (d : Device) (ev : EventFd) : Prop :=
  match d with
  | Device.serial t => t.signal = ev.signal ∧ t.fd ≠ ev.fd
  | Device.i8042 t => t.signal = ev.signal ∧ t.fd ≠ ev.fd
  | Device.rtc => False

instance (d : Device) (ev : EventFd) : Decidable (deviceWrapsDuplicate d ev) := by
  cases d <;> (unfold deviceWrapsDuplicate; infer_instance)

/-- The registered resource list reserves an 8-unit address range starting
at the given base address. -/
def reservesEightUnitRange (rs : List Resource) (base : Nat) : Prop :=
  Resource.PioAddressRange base 8 ∈ rs

instance (rs : List Resource) (base : Nat) : Decidable (reservesEightUnitRange rs base) := by
  unfold reservesEightUnitRange; infer_instance

theorem consumed_refl {α : Type} (l : List (Option α)) : consumed l l :=
  ⟨0, rfl, by simp⟩

theorem consumed_trans {α : Type} {a b c : List (Option α)}
    (h1 : consumed a b) (h2 : consumed b c) : consumed a c := by
  obtain ⟨k1, hd1, ht1⟩ := h1
  obtain ⟨k2, hd2, ht2⟩ := h2
  refine ⟨k1 + k2, ?_, ?_⟩
  · rw [← List.drop_drop, hd1, hd2]
  · intro x hx
    rw [List.take_add] at hx
    rcases List.mem_append.mp hx with hx1 | hx2
    · exact ht1 x hx1
    · exact ht2 x (by rwa [hd1] at hx2)

theorem consumed_mem {α : Type} {a b : List (Option α)} {x : Option α}
    (h : consumed a b) (hx : x ∈ b) : x ∈ a := by
  obtain ⟨k, hd, _⟩ := h
  exact List.drop_subset k a (hd ▸ hx)

theorem consumed_tail {α : Type} (l : List (Option α))
    (h : ∀ (e : α) (t : List (Option α)), l = some e :: t → False) :
    consumed l l.tail := by
  cases l with
  | nil => exact ⟨0, rfl, by simp⟩
  | cons x t =>
    cases x with
    | none => exact ⟨1, rfl, by simp⟩
    | some e => exact absurd rfl (h e t)

theorem consumedAll_refl (w : World) : consumedAll w w :=
  ⟨consumed_refl _, consumed_refl _, consumed_refl _, consumed_refl _⟩

theorem consumedAll_trans {w1 w2 w3 : World}
    (h1 : consumedAll w1 w2) (h2 : consumedAll w2 w3) : consumedAll w1 w3 :=
  ⟨consumed_trans h1.1 h2.1, consumed_trans h1.2.1 h2.2.1,
   consumed_trans h1.2.2.1 h2.2.2.1, consumed_trans h1.2.2.2 h2.2.2.2⟩

theorem errorFromWorld_mono {w w2 : World} {e : Error}
    (hc : consumedAll w w2) (h : errorFromWorld w2 e) : errorFromWorld w e := by
  cases e with
  | EventFd io =>
    rcases h with h | h
    · exact Or.inl (consumed_mem hc.1 h)
    · exact Or.inr (consumed_mem hc.2.1 h)
  | BusError b => exact consumed_mem hc.2.2.1 h
  | IrqManager ir => exact consumed_mem hc.2.2.2 h

theorem EventFd_new_ok {nb : Bool} {w : World} {ev : EventFd} {w2 : World}
    (h : EventFd.new nb w = Except.ok (ev, w2)) :
    ev.fd = w.nextFd ∧ ev.signal = w.nextSignal ∧ ev.nonblocking = nb ∧
    w2.nextFd = w.nextFd + 1 ∧ w2.nextSignal = w.nextSignal + 1 ∧
    consumed w.fdNewResults w2.fdNewResults ∧
    w2.fdCloneResults = w.fdCloneResults ∧ w2.busResults = w.busResults ∧
    w2.irqResults = w.irqResults ∧
    w2.busRegistrations = w.busRegistrations ∧ w2.irqBindings = w.irqBindings := by
  unfold EventFd.new at h
  split at h
  · exact absurd h (by simp)
  · next hne =>
    obtain ⟨he, hw⟩ := Prod.mk.injEq .. ▸ Except.ok.injEq .. ▸ h
    subst he hw
    refine ⟨rfl, rfl, rfl, rfl, rfl, ?_, rfl, rfl, rfl, rfl, rfl⟩
    exact consumed_tail _ fun e t ht => hne e t ht

theorem EventFd_new_err {nb : Bool} {w : World} {e : IoError}
    (h : EventFd.new nb w = Except.error e) :
    Option.some e ∈ w.fdNewResults := by
  unfold EventFd.new at h
  split at h
  · next l heq =>
    obtain rfl : _ = e := Except.error.injEq .. ▸ h
    rw [heq]
    exact List.mem_cons_self _ _
  · exact absurd h (by simp)

theorem EventFd_tryClone_ok {ev : EventFd} {w : World} {dup : EventFd} {w2 : World}
    (h : ev.tryClone w = Except.ok (dup, w2)) :
    dup.fd = w.nextFd ∧ dup.signal = ev.signal ∧ dup.nonblocking = ev.nonblocking ∧
    w2.nextFd = w.nextFd + 1 ∧ w2.nextSignal = w.nextSignal ∧
    w2.fdNewResults = w.fdNewResults ∧
    consumed w.fdCloneResults w2.fdCloneResults ∧
    w2.busResults = w.busResults ∧ w2.irqResults = w.irqResults ∧
    w2.busRegistrations = w.busRegistrations ∧ w2.irqBindings = w.irqBindings := by
  unfold EventFd.tryClone at h
  split at h
  · exact absurd h (by simp)
  · next hne =>
    obtain ⟨he, hw⟩ := Prod.mk.injEq .. ▸ Except.ok.injEq .. ▸ h
    subst he hw
    refine ⟨rfl, rfl, rfl, rfl, rfl, rfl, ?_, rfl, rfl, rfl, rfl⟩
    exact consumed_tail _ fun e t ht => hne e t ht

theorem EventFd_tryClone_err {ev : EventFd} {w : World} {e : IoError}
    (h : ev.tryClone w = Except.error e) :
    Option.some e ∈ w.fdCloneResults := by
  unfold EventFd.tryClone at h
  split at h
  · next l heq =>
    obtain rfl : _ = e := Except.error.injEq .. ▸ h
    rw [heq]
    exact List.mem_cons_self _ _
  · exact absurd h (by simp)

theorem registerDeviceIo_ok {w : World} {d : Device} {rs : List Resource} {w2 : World}
    (h : registerDeviceIo w d rs = Except.ok w2) :
    w2.nextFd = w.nextFd ∧ w2.nextSignal = w.nextSignal ∧
    w2.fdNewResults = w.fdNewResults ∧ w2.fdCloneResults = w.fdCloneResults ∧
    consumed w.busResults w2.busResults ∧ w2.irqResults = w.irqResults ∧
    w2.busRegistrations = w.busRegistrations ++ [⟨d, rs⟩] ∧
    w2.irqBindings = w.irqBindings := by
  unfold registerDeviceIo at h
  split at h
  · exact absurd h (by simp)
  · next hne =>
    obtain hw : _ = w2 := Except.ok.injEq .. ▸ h
    subst hw
    refine ⟨rfl, rfl, rfl, rfl, ?_, rfl, rfl, rfl⟩
    exact consumed_tail _ fun e t ht => hne e t ht

theorem registerDeviceIo_err {w : World} {d : Device} {rs : List Resource} {e : IoManagerError}
    (h : registerDeviceIo w d rs = Except.error e) :
    Option.some e ∈ w.busResults := by
  unfold registerDeviceIo at h
  split at h
  · next l heq =>
    obtain rfl : _ = e := Except.error.injEq .. ▸ h
    rw [heq]
    exact List.mem_cons_self _ _
  · exact absurd h (by simp)

theorem registerIrqfd_ok {w : World} {f : VmFd} {ev : EventFd} {irq : Nat} {w2 : World}
    (h : registerIrqfd w f ev irq = Except.ok w2) :
    w2.nextFd = w.nextFd ∧ w2.nextSignal = w.nextSignal ∧
    w2.fdNewResults = w.fdNewResults ∧ w2.fdCloneResults = w.fdCloneResults ∧
    w2.busResults = w.busResults ∧ consumed w.irqResults w2.irqResults ∧
    w2.busRegistrations = w.busRegistrations ∧
    w2.irqBindings = w.irqBindings ++ [(ev, irq)] := by
  unfold registerIrqfd at h
  split at h
  · exact absurd h (by simp)
  · next hne =>
    obtain hw : _ = w2 := Except.ok.injEq .. ▸ h
    subst hw
    refine ⟨rfl, rfl, rfl, rfl, rfl, ?_, rfl, rfl⟩
    exact consumed_tail _ fun e t ht => hne e t ht

theorem registerIrqfd_err {w : World} {f : VmFd} {ev : EventFd} {irq : Nat} {e : ErrnoError}
    (h : registerIrqfd w f ev irq = Except.error e) :
    Option.some e ∈ w.irqResults := by
  unfold registerIrqfd at h
  split at h
  · next l heq =>
    obtain rfl : _ = e := Except.error.injEq .. ▸ h
    rw [heq]
    exact List.mem_cons_self _ _
  · exact absurd h (by simp)

theorem consumed_of_eq {α : Type} {a b : List (Option α)} (h : a = b) : consumed a b :=
  h ▸ consumed_refl a

theorem consumedAll_of_new {nb : Bool} {w : World} {ev : EventFd} {w2 : World}
    (h : EventFd.new nb w = Except.ok (ev, w2)) : consumedAll w w2 := by
  obtain ⟨-, -, -, -, -, hcons, h1, h2, h3, -, -⟩ := EventFd_new_ok h
  exact ⟨hcons, consumed_of_eq h1.symm, consumed_of_eq h2.symm, consumed_of_eq h3.symm⟩

theorem consumedAll_of_clone {ev : EventFd} {w : World} {dup : EventFd} {w2 : World}
    (h : ev.tryClone w = Except.ok (dup, w2)) : consumedAll w w2 := by
  obtain ⟨-, -, -, -, -, h1, hcons, h2, h3, -, -⟩ := EventFd_tryClone_ok h
  exact ⟨consumed_of_eq h1.symm, hcons, consumed_of_eq h2.symm, consumed_of_eq h3.symm⟩

theorem consumedAll_of_bus {w : World} {d : Device} {rs : List Resource} {w2 : World}
    (h : registerDeviceIo w d rs = Except.ok w2) : consumedAll w w2 := by
  obtain ⟨-, -, h1, h2, hcons, h3, -, -⟩ := registerDeviceIo_ok h
  exact ⟨consumed_of_eq h1.symm, consumed_of_eq h2.symm, hcons, consumed_of_eq h3.symm⟩

theorem consumedAll_of_irq {w : World} {f : VmFd} {ev : EventFd} {irq : Nat} {w2 : World}
    (h : registerIrqfd w f ev irq = Except.ok w2) : consumedAll w w2 := by
  obtain ⟨-, -, h1, h2, h3, hcons, -, -⟩ := registerIrqfd_ok h
  exact ⟨consumed_of_eq h1.symm, consumed_of_eq h2.symm, consumed_of_eq h3.symm, hcons⟩

theorem x86_com_ok {w : World} {vm : Option VmFd} {irq port : Nat}
    {d : Device} {ev : EventFd} {w2 : World}
    (h : x86_64.create_com_device w vm irq port = Except.ok ((d, ev), w2)) :
    consumedAll w w2 ∧
    deviceWrapsDuplicate d ev ∧
    ev.fd = w.nextFd ∧ ev.signal = w.nextSignal ∧ ev.nonblocking = true ∧
    w2.busRegistrations = w.busRegistrations ++ [⟨d, [Resource.PioAddressRange port 8]⟩] ∧
    (vm = none → w2.irqBindings = w.irqBindings) ∧
    (∀ f, vm = some f → w2.irqBindings = w.irqBindings ++ [(ev, irq)]) := by
  unfold x86_64.create_com_device at h
  split at h
  · exact absurd h (by simp)
  next evfd w1 hnew =>
  split at h
  · exact absurd h (by simp)
  next dup wB hclone =>
  dsimp only at h
  split at h
  · exact absurd h (by simp)
  next wC hbus =>
  obtain ⟨hnf, hns, hnnb, hnf1, hns1, hncons, hnc, hnb, hni, hnbr, hnib⟩ := EventFd_new_ok hnew
  obtain ⟨hcf, hcs, hcnb, hcf1, hcs1, hcn, hccons, hcb, hci, hcbr, hcib⟩ :=
    EventFd_tryClone_ok hclone
  obtain ⟨hbf, hbs, hbn, hbc, hbcons, hbi, hbbr, hbib⟩ := registerDeviceIo_ok hbus
  split at h
  next fd =>
    split at h
    · exact absurd h (by simp)
    next wD hirq =>
    obtain ⟨hif, his, hin, hic, hib2, hicons, hibr, hibnd⟩ := registerIrqfd_ok hirq
    obtain ⟨hpair, hw⟩ := Prod.mk.injEq .. ▸ Except.ok.injEq .. ▸ h
    obtain ⟨hd, hev⟩ := Prod.mk.injEq .. ▸ hpair
    subst hd hev hw
    refine ⟨?_, ?_, hnf, hns, hnnb, ?_, ?_, ?_⟩
    · exact consumedAll_trans (consumedAll_of_new hnew)
        (consumedAll_trans (consumedAll_of_clone hclone)
          (consumedAll_trans (consumedAll_of_bus hbus) (consumedAll_of_irq hirq)))
    · simp only [deviceWrapsDuplicate]
      refine ⟨hcs, ?_⟩
      rw [hcf, hnf1, hnf]
      omega
    · rw [hibr, hbbr, hcbr, hnbr]
    · intro hcontra; exact absurd hcontra (by simp)
    · intro f hf
      rw [hibnd, hbib, hcib, hnib]
  next =>
    obtain ⟨hpair, hw⟩ := Prod.mk.injEq .. ▸ Except.ok.injEq .. ▸ h
    obtain ⟨hd, hev⟩ := Prod.mk.injEq .. ▸ hpair
    subst hd hev hw
    refine ⟨?_, ?_, hnf, hns, hnnb, ?_, ?_, ?_⟩
    · exact consumedAll_trans (consumedAll_of_new hnew)
        (consumedAll_trans (consumedAll_of_clone hclone) (consumedAll_of_bus hbus))
    · simp only [deviceWrapsDuplicate]
      refine ⟨hcs, ?_⟩
      rw [hcf, hnf1, hnf]
      omega
    · rw [hbbr, hcbr, hnbr]
    · intro hnone
      rw [hbib, hcib, hnib]
    · intro f hf; exact absurd hf (by simp)

theorem x86_com_err {w : World} {vm : Option VmFd} {irq port : Nat} {e : Error}
    (h : x86_64.create_com_device w vm irq port = Except.error e) :
    errorFromWorld w e := by
  unfold x86_64.create_com_device at h
  split at h
  · next e1 hnew =>
    obtain rfl : Error.EventFd e1 = e := Except.error.injEq .. ▸ h
    exact Or.inl (EventFd_new_err hnew)
  next evfd w1 hnew =>
  obtain ⟨-, -, -, -, -, -, hnc, hnb, hni, -, -⟩ := EventFd_new_ok hnew
  split at h
  · next e1 hclone =>
    obtain rfl : Error.EventFd e1 = e := Except.error.injEq .. ▸ h
    exact Or.inr (hnc ▸ EventFd_tryClone_err hclone)
  next dup wB hclone =>
  obtain ⟨-, -, -, -, -, -, -, hcb, hci, -, -⟩ := EventFd_tryClone_ok hclone
  dsimp only at h
  split at h
  · next e1 hbus =>
    obtain rfl : Error.BusError e1 = e := Except.error.injEq .. ▸ h
    have hm := registerDeviceIo_err hbus
    rw [hcb, hnb] at hm
    exact hm
  next wC hbus =>
  obtain ⟨-, -, -, -, -, hbi, -, -⟩ := registerDeviceIo_ok hbus
  split at h
  next fd =>
    split at h
    · next e1 hirq =>
      obtain rfl : Error.IrqManager e1 = e := Except.error.injEq .. ▸ h
      have hm := registerIrqfd_err hirq
      rw [hbi, hci, hni] at hm
      exact hm
    · exact absurd h (by simp)
  next => exact absurd h (by simp)

theorem x86_manager_ok {w : World} {vm : Option VmFd}
    {m : x86_64.LegacyDeviceManager} {w2 : World}
    (h : x86_64.create_manager w vm = Except.ok (m, w2)) :
    consumedAll w w2 := by
  unfold x86_64.create_manager at h
  split at h
  · exact absurd h (by simp)
  next d1 e1 w1 hcom1 =>
  split at h
  · exact absurd h (by simp)
  next d2 e2 wB hcom2 =>
  split at h
  · exact absurd h (by simp)
  next exitev wC hnew =>
  split at h
  · exact absurd h (by simp)
  next exitdup wD hclone =>
  dsimp only at h
  split at h
  · exact absurd h (by simp)
  next wE hbus =>
  obtain ⟨hpair, hw⟩ := Prod.mk.injEq .. ▸ Except.ok.injEq .. ▸ h
  subst hw
  exact consumedAll_trans (x86_com_ok hcom1).1
    (consumedAll_trans (x86_com_ok hcom2).1
      (consumedAll_trans (consumedAll_of_new hnew)
        (consumedAll_trans (consumedAll_of_clone hclone) (consumedAll_of_bus hbus))))

theorem x86_manager_err {w : World} {vm : Option VmFd} {e : Error}
    (h : x86_64.create_manager w vm = Except.error e) :
    errorFromWorld w e := by
  unfold x86_64.create_manager at h
  split at h
  · next e1 hcom1 =>
    obtain rfl : e1 = e := Except.error.injEq .. ▸ h
    exact x86_com_err hcom1
  next d1 e1 w1 hcom1 =>
  split at h
  · next e2 hcom2 =>
    obtain rfl : e2 = e := Except.error.injEq .. ▸ h
    exact errorFromWorld_mono (x86_com_ok hcom1).1 (x86_com_err hcom2)
  next d2 e2 wB hcom2 =>
  have hwB : consumedAll w wB :=
    consumedAll_trans (x86_com_ok hcom1).1 (x86_com_ok hcom2).1
  split at h
  · next e3 hnew =>
    obtain rfl : Error.EventFd e3 = e := Except.error.injEq .. ▸ h
    exact errorFromWorld_mono hwB (Or.inl (EventFd_new_err hnew))
  next exitev wC hnew =>
  have hwC : consumedAll w wC := consumedAll_trans hwB (consumedAll_of_new hnew)
  split at h
  · next e3 hclone =>
    obtain rfl : Error.EventFd e3 = e := Except.error.injEq .. ▸ h
    exact errorFromWorld_mono hwC (Or.inr (EventFd_tryClone_err hclone))
  next exitdup wD hclone =>
  have hwD : consumedAll w wD := consumedAll_trans hwC (consumedAll_of_clone hclone)
  dsimp only at h
  split at h
  · next e3 hbus =>
    obtain rfl : Error.BusError e3 = e := Except.error.injEq .. ▸ h
    exact errorFromWorld_mono hwD (registerDeviceIo_err hbus)
  · exact absurd h (by simp)

theorem a64_com_ok {w : World} {vm : Option VmFd} {rd : DeviceResources}
    {d : Device} {ev : EventFd} {w2 : World}
    (h : aarch64.create_com_device w vm rd = Outcome.ok ((d, ev), w2)) :
    consumedAll w w2 ∧
    deviceWrapsDuplicate d ev ∧
    w2.busRegistrations = w.busRegistrations ++ [⟨d, rd.get_all_resources⟩] ∧
    (vm = none → w2.irqBindings = w.irqBindings) ∧
    (∀ f, vm = some f → ∃ i, rd.get_legacy_irq = some i ∧
        w2.irqBindings = w.irqBindings ++ [(ev, i)]) := by
  unfold aarch64.create_com_device at h
  split at h
  · exact absurd h (by simp)
  next evfd w1 hnew =>
  split at h
  · exact absurd h (by simp)
  next dup wB hclone =>
  dsimp only at h
  split at h
  · exact absurd h (by simp)
  next wC hbus =>
  obtain ⟨hnf, hns, hnnb, hnf1, hns1, hncons, hnc, hnb, hni, hnbr, hnib⟩ := EventFd_new_ok hnew
  obtain ⟨hcf, hcs, hcnb, hcf1, hcs1, hcn, hccons, hcb, hci, hcbr, hcib⟩ :=
    EventFd_tryClone_ok hclone
  obtain ⟨hbf, hbs, hbn, hbc, hbcons, hbi, hbbr, hbib⟩ := registerDeviceIo_ok hbus
  split at h
  next fd =>
    split at h
    · exact absurd h (by simp)
    next irq hirqline =>
    split at h
    · exact absurd h (by simp)
    next wD hirq =>
    obtain ⟨hif, his, hin, hic, hib2, hicons, hibr, hibnd⟩ := registerIrqfd_ok hirq
    obtain ⟨hpair, hw⟩ := Prod.mk.injEq .. ▸ Outcome.ok.injEq .. ▸ h
    obtain ⟨hd, hev⟩ := Prod.mk.injEq .. ▸ hpair
    subst hd hev hw
    refine ⟨?_, ?_, ?_, ?_, ?_⟩
    · exact consumedAll_trans (consumedAll_of_new hnew)
        (consumedAll_trans (consumedAll_of_clone hclone)
          (consumedAll_trans (consumedAll_of_bus hbus) (consumedAll_of_irq hirq)))
    · simp only [deviceWrapsDuplicate]
      refine ⟨hcs, ?_⟩
      rw [hcf, hnf1, hnf]
      omega
    · rw [hibr, hbbr, hcbr, hnbr]
    · intro hcontra; exact absurd hcontra (by simp)
    · intro f hf
      refine ⟨irq, hirqline, ?_⟩
      rw [hibnd, hbib, hcib, hnib]
  next =>
    obtain ⟨hpair, hw⟩ := Prod.mk.injEq .. ▸ Outcome.ok.injEq .. ▸ h
    obtain ⟨hd, hev⟩ := Prod.mk.injEq .. ▸ hpair
    subst hd hev hw
    refine ⟨?_, ?_, ?_, ?_, ?_⟩
    · exact consumedAll_trans (consumedAll_of_new hnew)
        (consumedAll_trans (consumedAll_of_clone hclone) (consumedAll_of_bus hbus))
    · simp only [deviceWrapsDuplicate]
      refine ⟨hcs, ?_⟩
      rw [hcf, hnf1, hnf]
      omega
    · rw [hbbr, hcbr, hnbr]
    · intro hnone
      rw [hbib, hcib, hnib]
    · intro f hf; exact absurd hf (by simp)

theorem a64_rtc_ok {w : World} {vm : Option VmFd} {rd : DeviceResources}
    {d : Device} {ev : EventFd} {w2 : World}
    (h : aarch64.create_rtc_device w vm rd = Outcome.ok ((d, ev), w2)) :
    consumedAll w w2 ∧
    d = Device.rtc ∧
    ev.fd = w.nextFd ∧ ev.signal = w.nextSignal ∧
    w2.busRegistrations = w.busRegistrations ++ [⟨Device.rtc, rd.get_all_resources⟩] ∧
    (vm = none → w2.irqBindings = w.irqBindings) ∧
    (∀ f, vm = some f → ∃ i, rd.get_legacy_irq = some i ∧
        w2.irqBindings = w.irqBindings ++ [(ev, i)]) := by
  unfold aarch64.create_rtc_device at h
  split at h
  · exact absurd h (by simp)
  next evfd w1 hnew =>
  dsimp only at h
  split at h
  · exact absurd h (by simp)
  next wB hbus =>
  obtain ⟨hnf, hns, hnnb, hnf1, hns1, hncons, hnc, hnb, hni, hnbr, hnib⟩ := EventFd_new_ok hnew
  obtain ⟨hbf, hbs, hbn, hbc, hbcons, hbi, hbbr, hbib⟩ := registerDeviceIo_ok hbus
  split at h
  next fd =>
    split at h
    · exact absurd h (by simp)
    next irq hirqline =>
    split at h
    · exact absurd h (by simp)
    next wC hirq =>
    obtain ⟨hif, his, hin, hic, hib2, hicons, hibr, hibnd⟩ := registerIrqfd_ok hirq
    obtain ⟨hpair, hw⟩ := Prod.mk.injEq .. ▸ Outcome.ok.injEq .. ▸ h
    obtain ⟨hd, hev⟩ := Prod.mk.injEq .. ▸ hpair
    subst hd hev hw
    refine ⟨?_, rfl, hnf, hns, ?_, ?_, ?_⟩
    · exact consumedAll_trans (consumedAll_of_new hnew)
        (consumedAll_trans (consumedAll_of_bus hbus) (consumedAll_of_irq hirq))
    · rw [hibr, hbbr, hnbr]
    · intro hcontra; exact absurd hcontra (by simp)
    · intro f hf
      refine ⟨irq, hirqline, ?_⟩
      rw [hibnd, hbib, hnib]
  next =>
    obtain ⟨hpair, hw⟩ := Prod.mk.injEq .. ▸ Outcome.ok.injEq .. ▸ h
    obtain ⟨hd, hev⟩ := Prod.mk.injEq .. ▸ hpair
    subst hd hev hw
    refine ⟨?_, rfl, hnf, hns, ?_, ?_, ?_⟩
    · exact consumedAll_trans (consumedAll_of_new hnew) (consumedAll_of_bus hbus)
    · rw [hbbr, hnbr]
    · intro hnone
      rw [hbib, hnib]
    · intro f hf; exact absurd hf (by simp)

theorem a64_rtc_panic {w : World} {f : VmFd} {rd : DeviceResources}
    (hn : w.fdNewResults = []) (hb : w.busResults = [])
    (hirq : rd.get_legacy_irq = Option.none) :
    aarch64.create_rtc_device w (some f) rd = Outcome.panic := by
  simp [aarch64.create_rtc_device, EventFd.new, registerDeviceIo, hn, hb, hirq]

/-- C1: on the flexible-layout (aarch64) profile, create_manager does
resources.get(name).unwrap() for com1, com2 and rtc, so a resource map
missing a required device name makes construction panic (an unchecked
crash), not return a defined error value: with an empty map the com1
lookup panics at once, and with a map holding only com1 and com2 the rtc
lookup panics after both serial devices were already registered.  This
refutes the claimed error return and evidences the robustness gap the
specification flags. -/
theorem c1_missing_resource_key_panics :
    aarch64.create_manager cleanWorld none [] = Outcome.panic ∧
    aarch64.create_manager cleanWorld (some ⟨0⟩)
        [(aarch64.COM1, ⟨[Resource.PioAddressRange 0x3f8 8, Resource.LegacyIrq 4]⟩),
         (aarch64.COM2, ⟨[Resource.PioAddressRange 0x2f8 8, Resource.LegacyIrq 3]⟩)]
      = Outcome.panic := by
  decide

/-- C2: for every input to the fixed-layout create_manager, an error
result wraps the failing collaborator step with the corresponding error
kind (EventFd for notifier creation or duplication, BusError for bus
registration, IrqManager for interrupt binding), the wrapped value being
an error that collaborator actually produced; and a successful result
means every consumed collaborator call succeeded, so a failing step can
never yield a manager (the Except result carries no manager alongside an
error by construction). -/
theorem c2_error_wrapping_and_no_partial_success :
    (∀ (w : World) (vm : Option VmFd) (e : Error),
      x86_64.create_manager w vm = Except.error e → errorFromWorld w e) ∧
    (∀ (w : World) (vm : Option VmFd) (m : x86_64.LegacyDeviceManager) (w2 : World),
      x86_64.create_manager w vm = Except.ok (m, w2) → consumedAll w w2) :=
  ⟨fun _ _ _ h => x86_manager_err h, fun _ _ _ _ h => x86_manager_ok h⟩

/-- C2 witness: a world scripting a bus failure makes create_manager
return Error.BusError wrapping that failure, and the clean world gives a
successful construction whose consumed scripts all succeeded. -/
theorem c2_witness :
    x86_64.create_manager { cleanWorld with busResults := [some ⟨5⟩] } none
        = Except.error (Error.BusError ⟨5⟩) ∧
    errorFromWorld { cleanWorld with busResults := [some ⟨5⟩] } (Error.BusError ⟨5⟩) ∧
    consumedAll cleanWorld
      ⟨6, 3, [], [], [], [],
       [⟨Device.serial ⟨1, 0, true⟩, [Resource.PioAddressRange 0x3f8 8]⟩,
        ⟨Device.serial ⟨3, 1, true⟩, [Resource.PioAddressRange 0x2f8 8]⟩,
        ⟨Device.i8042 ⟨5, 2, true⟩, [Resource.PioAddressRange 0x60 5]⟩], []⟩ :=
  ⟨by rfl,
   c2_error_wrapping_and_no_partial_success.1 _ none _ (by rfl),
   c2_error_wrapping_and_no_partial_success.2 cleanWorld none
     ⟨⟨4, 2, true⟩, Device.serial ⟨1, 0, true⟩, ⟨0, 0, true⟩,
      Device.serial ⟨3, 1, true⟩, ⟨2, 1, true⟩⟩
     ⟨6, 3, [], [], [], [],
      [⟨Device.serial ⟨1, 0, true⟩, [Resource.PioAddressRange 0x3f8 8]⟩,
       ⟨Device.serial ⟨3, 1, true⟩, [Resource.PioAddressRange 0x2f8 8]⟩,
       ⟨Device.i8042 ⟨5, 2, true⟩, [Resource.PioAddressRange 0x60 5]⟩], []⟩
     (by rfl)⟩

/-- C4: the fixed-layout profile assigns COM1 interrupt line 4 at port
base 0x3f8 and COM2 interrupt line 3 at port base 0x2f8, and registers a
5-unit range for the i8042 reset controller at port 0x60; the three
reserved ranges are pairwise disjoint, as a clean construction run
records on the bus and in the interrupt bindings. -/
theorem c4_fixed_layout_assignment :
    x86_64.COM1_IRQ = 4 ∧ x86_64.COM1_PORT1 = 0x3f8 ∧
    x86_64.COM2_IRQ = 3 ∧ x86_64.COM2_PORT1 = 0x2f8 ∧ I8042_DATA_PORT = 0x60 ∧
    (∃ m w2, x86_64.create_manager cleanWorld (some ⟨0⟩) = Except.ok (m, w2) ∧
      w2.busRegistrations.map BusRegistration.resources =
        [[Resource.PioAddressRange 0x3f8 0x8],
         [Resource.PioAddressRange 0x2f8 0x8],
         [Resource.PioAddressRange 0x60 0x5]] ∧
      w2.irqBindings = [(m._com1_eventfd, 4), (m._com2_eventfd, 3)]) ∧
    rangesDisjoint 0x3f8 0x8 0x2f8 0x8 ∧
    rangesDisjoint 0x3f8 0x8 0x60 0x5 ∧
    rangesDisjoint 0x2f8 0x8 0x60 0x5 := by
  refine ⟨rfl, rfl, rfl, rfl, rfl, ⟨_, _, rfl, by decide, by decide⟩,
    by decide, by decide, by decide⟩

/-- C7: two calls of the exit-signal accessor produce two descriptors
that both reference the same underlying signal as the stored reset
notifier, hence the same signal as each other, while being fresh,
distinct descriptors; the manager itself is taken by shared reference,
so its own notifier is not moved out by either call. -/
theorem c7_reset_accessor_shares_signal (w : World) (m : x86_64.LegacyDeviceManager)
    (ev1 ev2 : EventFd) (w1 w2 : World)
    (h1 : m.get_reset_eventfd w = Except.ok (ev1, w1))
    (h2 : m.get_reset_eventfd w1 = Except.ok (ev2, w2)) :
    ev1.signal = m.i8042_reset_eventfd.signal ∧
    ev2.signal = m.i8042_reset_eventfd.signal ∧
    ev1.signal = ev2.signal ∧ ev1.fd ≠ ev2.fd := by
  unfold x86_64.LegacyDeviceManager.get_reset_eventfd at h1 h2
  split at h1
  · exact absurd h1 (by simp)
  next dup1 wA hclone1 =>
  obtain ⟨hpe, hpw⟩ := Prod.mk.injEq .. ▸ Except.ok.injEq .. ▸ h1
  subst hpe hpw
  split at h2
  · exact absurd h2 (by simp)
  next dup2 wB hclone2 =>
  obtain ⟨hpe2, hpw2⟩ := Prod.mk.injEq .. ▸ Except.ok.injEq .. ▸ h2
  subst hpe2 hpw2
  obtain ⟨h1f, h1s, -, h1nf, -, -, -, -, -, -, -⟩ := EventFd_tryClone_ok hclone1
  obtain ⟨h2f, h2s, -, -, -, -, -, -, -, -, -⟩ := EventFd_tryClone_ok hclone2
  refine ⟨h1s, h2s, by rw [h1s, h2s], ?_⟩
  rw [h1f, h2f, h1nf]
  omega

/-- C7 witness: on a concrete manager whose reset notifier has signal 5,
two accessor calls return descriptors 10 and 11, both over signal 5. -/
theorem c7_witness :
    (⟨10, 5, true⟩ : EventFd).signal =
        (⟨⟨9, 5, true⟩, Device.serial ⟨1, 0, true⟩, ⟨0, 0, true⟩,
          Device.serial ⟨3, 1, true⟩, ⟨2, 1, true⟩⟩ :
            x86_64.LegacyDeviceManager).i8042_reset_eventfd.signal ∧
    (⟨11, 5, true⟩ : EventFd).signal =
        (⟨⟨9, 5, true⟩, Device.serial ⟨1, 0, true⟩, ⟨0, 0, true⟩,
          Device.serial ⟨3, 1, true⟩, ⟨2, 1, true⟩⟩ :
            x86_64.LegacyDeviceManager).i8042_reset_eventfd.signal ∧
    (⟨10, 5, true⟩ : EventFd).signal = (⟨11, 5, true⟩ : EventFd).signal ∧
    (⟨10, 5, true⟩ : EventFd).fd ≠ (⟨11, 5, true⟩ : EventFd).fd :=
  c7_reset_accessor_shares_signal
    { cleanWorld with nextFd := 10 }
    ⟨⟨9, 5, true⟩, Device.serial ⟨1, 0, true⟩, ⟨0, 0, true⟩,
     Device.serial ⟨3, 1, true⟩, ⟨2, 1, true⟩⟩
    ⟨10, 5, true⟩ ⟨11, 5, true⟩
    { cleanWorld with nextFd := 11 } { cleanWorld with nextFd := 12 }
    (by rfl) (by rfl)

/-- C10: the exit-signal accessor is fallible: when the scripted
duplication of the stored reset notifier fails, it returns exactly
Error.EventFd wrapping that io error, and on success the returned
descriptor is a fresh duplicate of the retained notifier, which itself is
read through a shared reference and therefore unchanged. -/
theorem c10_reset_accessor_error_kind :
    (∀ (w : World) (m : x86_64.LegacyDeviceManager) (e : IoError)
        (rest : List (Option IoError)),
      w.fdCloneResults = some e :: rest →
      m.get_reset_eventfd w = Except.error (Error.EventFd e)) ∧
    (∀ (w : World) (m : x86_64.LegacyDeviceManager) (ev : EventFd) (w2 : World),
      m.get_reset_eventfd w = Except.ok (ev, w2) →
      ev.signal = m.i8042_reset_eventfd.signal ∧ ev.fd = w.nextFd) := by
  constructor
  · intro w m e rest hs
    simp [x86_64.LegacyDeviceManager.get_reset_eventfd, EventFd.tryClone, hs]
  · intro w m ev w2 h
    unfold x86_64.LegacyDeviceManager.get_reset_eventfd at h
    split at h
    · exact absurd h (by simp)
    next dup wA hclone =>
    obtain ⟨hpe, hpw⟩ := Prod.mk.injEq .. ▸ Except.ok.injEq .. ▸ h
    subst hpe hpw
    obtain ⟨hf, hsg, -, -, -, -, -, -, -, -, -⟩ := EventFd_tryClone_ok hclone
    exact ⟨hsg, hf⟩

/-- C3: with a hypervisor handle, a clean construction makes exactly one
interrupt-binding call per device that declares an interrupt line: on the
fixed profile COM1 and COM2 with lines 4 and 3, on the flexible profile
COM1, COM2 and the clock with the lines of their descriptors; without a
handle no binding call is made and construction still succeeds. -/
theorem c3_interrupt_binding_per_device :
    (∀ (w : World) (f : VmFd), cleanScripts w →
      ∃ m w2, x86_64.create_manager w (some f) = Except.ok (m, w2) ∧
        w2.irqBindings = w.irqBindings ++
          [(m._com1_eventfd, x86_64.COM1_IRQ), (m._com2_eventfd, x86_64.COM2_IRQ)]) ∧
    (∀ (w : World), cleanScripts w →
      ∃ m w2, x86_64.create_manager w none = Except.ok (m, w2) ∧
        w2.irqBindings = w.irqBindings) ∧
    (∀ (w : World) (f : VmFd) (r1 r2 r3 : DeviceResources) (i1 i2 i3 : Nat),
      cleanScripts w →
      r1.get_legacy_irq = some i1 → r2.get_legacy_irq = some i2 →
      r3.get_legacy_irq = some i3 →
      ∃ m w2, aarch64.create_manager w (some f)
          [(aarch64.COM1, r1), (aarch64.COM2, r2), (aarch64.RTC, r3)]
            = Outcome.ok (m, w2) ∧
        w2.irqBindings = w.irqBindings ++
          [(m._com1_eventfd, i1), (m._com2_eventfd, i2), (m._rtc_eventfd, i3)]) ∧
    (∀ (w : World) (r1 r2 r3 : DeviceResources), cleanScripts w →
      ∃ m w2, aarch64.create_manager w none
          [(aarch64.COM1, r1), (aarch64.COM2, r2), (aarch64.RTC, r3)]
            = Outcome.ok (m, w2) ∧
        w2.irqBindings = w.irqBindings) := by
  refine ⟨?_, ?_, ?_, ?_⟩
  · intro w f hc
    obtain ⟨nf, ns, l1, l2, l3, l4, br, ib⟩ := w
    obtain ⟨h1, h2, h3, h4⟩ := hc
    dsimp only at h1 h2 h3 h4
    subst h1 h2 h3 h4
    exact ⟨_, _, rfl, by simp [x86_64.COM1_IRQ, x86_64.COM2_IRQ]⟩
  · intro w hc
    obtain ⟨nf, ns, l1, l2, l3, l4, br, ib⟩ := w
    obtain ⟨h1, h2, h3, h4⟩ := hc
    dsimp only at h1 h2 h3 h4
    subst h1 h2 h3 h4
    exact ⟨_, _, rfl, by simp⟩
  · intro w f r1 r2 r3 i1 i2 i3 hc hr1 hr2 hr3
    obtain ⟨nf, ns, l1, l2, l3, l4, br, ib⟩ := w
    obtain ⟨h1, h2, h3, h4⟩ := hc
    dsimp only at h1 h2 h3 h4
    subst h1 h2 h3 h4
    simp [aarch64.create_manager, aarch64.mapGet, aarch64.COM1, aarch64.COM2, aarch64.RTC,
      aarch64.create_com_device, aarch64.create_rtc_device, EventFd.new, EventFd.tryClone,
      registerDeviceIo, registerIrqfd, hr1, hr2, hr3]
    exact ⟨_, _, ⟨rfl, rfl⟩, by simp⟩
  · intro w r1 r2 r3 hc
    obtain ⟨nf, ns, l1, l2, l3, l4, br, ib⟩ := w
    obtain ⟨h1, h2, h3, h4⟩ := hc
    dsimp only at h1 h2 h3 h4
    subst h1 h2 h3 h4
    exact ⟨_, _, rfl, by simp⟩

/-- C3 witness: all four parts instantiated on the clean world, the
flexible profile receiving descriptors with interrupt lines 4, 3 and 8. -/
theorem c3_witness :
    (∃ m w2, x86_64.create_manager cleanWorld (some ⟨0⟩) = Except.ok (m, w2) ∧
      w2.irqBindings = cleanWorld.irqBindings ++
        [(m._com1_eventfd, x86_64.COM1_IRQ), (m._com2_eventfd, x86_64.COM2_IRQ)]) ∧
    (∃ m w2, x86_64.create_manager cleanWorld none = Except.ok (m, w2) ∧
      w2.irqBindings = cleanWorld.irqBindings) ∧
    (∃ m w2, aarch64.create_manager cleanWorld (some ⟨0⟩)
        [(aarch64.COM1, ⟨[Resource.LegacyIrq 4]⟩),
         (aarch64.COM2, ⟨[Resource.LegacyIrq 3]⟩),
         (aarch64.RTC, ⟨[Resource.LegacyIrq 8]⟩)] = Outcome.ok (m, w2) ∧
      w2.irqBindings = cleanWorld.irqBindings ++
        [(m._com1_eventfd, 4), (m._com2_eventfd, 3), (m._rtc_eventfd, 8)]) ∧
    (∃ m w2, aarch64.create_manager cleanWorld none
        [(aarch64.COM1, ⟨[Resource.LegacyIrq 4]⟩),
         (aarch64.COM2, ⟨[Resource.LegacyIrq 3]⟩),
         (aarch64.RTC, ⟨[Resource.LegacyIrq 8]⟩)] = Outcome.ok (m, w2) ∧
      w2.irqBindings = cleanWorld.irqBindings) :=
  ⟨c3_interrupt_binding_per_device.1 cleanWorld ⟨0⟩ (by decide),
   c3_interrupt_binding_per_device.2.1 cleanWorld (by decide),
   c3_interrupt_binding_per_device.2.2.1 cleanWorld ⟨0⟩
     ⟨[Resource.LegacyIrq 4]⟩ ⟨[Resource.LegacyIrq 3]⟩ ⟨[Resource.LegacyIrq 8]⟩
     4 3 8 (by decide) (by decide) (by decide) (by decide),
   c3_interrupt_binding_per_device.2.2.2 cleanWorld
     ⟨[Resource.LegacyIrq 4]⟩ ⟨[Resource.LegacyIrq 3]⟩ ⟨[Resource.LegacyIrq 8]⟩
     (by decide)⟩

/-- C5 counterexample: with a hypervisor handle supplied and a clock
descriptor holding an address range but no interrupt line, construction
of the clock device panics (get_legacy_irq().unwrap() on None) instead of
skipping the binding or returning a defined error, refuting the claim
that construction does not crash in that situation. -/
theorem c5_counterexample :
    aarch64.create_rtc_device cleanWorld (some ⟨0⟩)
      ⟨[Resource.PioAddressRange 0x70 2]⟩ = Outcome.panic := by
  decide

/-- C5 amended: the clock interrupt line is bound exactly when both a
hypervisor handle and an interrupt line in the descriptor are present;
with a handle but no interrupt line, construction panics (an unchecked
crash) rather than skipping the binding or returning an error; with no
handle nothing is bound and construction proceeds. -/
theorem c5_rtc_binding_guarded :
    (∀ (w : World) (vm : Option VmFd) (rd : DeviceResources)
        (d : Device) (ev : EventFd) (w2 : World),
      aarch64.create_rtc_device w vm rd = Outcome.ok ((d, ev), w2) →
      (vm = none → w2.irqBindings = w.irqBindings) ∧
      (∀ f, vm = some f → ∃ i, rd.get_legacy_irq = some i ∧
          w2.irqBindings = w.irqBindings ++ [(ev, i)])) ∧
    (∀ (w : World) (f : VmFd) (rd : DeviceResources),
      w.fdNewResults = [] → w.busResults = [] →
      rd.get_legacy_irq = Option.none →
      aarch64.create_rtc_device w (some f) rd = Outcome.panic) :=
  ⟨fun _ _ _ _ _ _ h => ⟨(a64_rtc_ok h).2.2.2.2.2.1, (a64_rtc_ok h).2.2.2.2.2.2⟩,
   fun _ _ _ h1 h2 h3 => a64_rtc_panic h1 h2 h3⟩

/-- C5 witness: a clock run with a handle and interrupt line 8 binds
exactly (eventfd, 8); a run without a handle binds nothing; a descriptor
without an interrupt line panics under a handle. -/
theorem c5_witness :
    (∃ i, DeviceResources.get_legacy_irq
        ⟨[Resource.PioAddressRange 0x70 2, Resource.LegacyIrq 8]⟩ = some i ∧
      (⟨1, 1, [], [], [], [],
        [⟨Device.rtc, [Resource.PioAddressRange 0x70 2, Resource.LegacyIrq 8]⟩],
        [(⟨0, 0, true⟩, 8)]⟩ : World).irqBindings =
          cleanWorld.irqBindings ++ [((⟨0, 0, true⟩ : EventFd), i)]) ∧
    aarch64.create_rtc_device { cleanWorld with nextFd := 3 } (some ⟨7⟩)
      ⟨[Resource.PioAddressRange 0x90 1]⟩ = Outcome.panic :=
  ⟨(c5_rtc_binding_guarded.1 cleanWorld (some ⟨0⟩)
      ⟨[Resource.PioAddressRange 0x70 2, Resource.LegacyIrq 8]⟩
      Device.rtc ⟨0, 0, true⟩
      ⟨1, 1, [], [], [], [],
       [⟨Device.rtc, [Resource.PioAddressRange 0x70 2, Resource.LegacyIrq 8]⟩],
       [(⟨0, 0, true⟩, 8)]⟩
      (by decide)).2 ⟨0⟩ rfl,
   c5_rtc_binding_guarded.2 { cleanWorld with nextFd := 3 } ⟨7⟩
     ⟨[Resource.PioAddressRange 0x90 1]⟩ rfl rfl (by decide)⟩

/-- C6 counterexample: on the flexible profile the clock device is built
by RTCDevice::new() with no eventfd, so the constructed device does not
wrap a duplicate of its private notifier, refuting the claim for the
clock device. -/
theorem c6_counterexample :
    aarch64.create_rtc_device cleanWorld none ⟨[Resource.PioAddressRange 0x70 2]⟩
      = Outcome.ok ((Device.rtc, ⟨0, 0, true⟩),
          ⟨1, 1, [], [], [], [],
           [⟨Device.rtc, [Resource.PioAddressRange 0x70 2]⟩], []⟩) ∧
    ¬ deviceWrapsDuplicate Device.rtc ⟨0, 0, true⟩ := by
  decide

/-- C6 amended: each serial device, on either profile, is constructed
wrapping a duplicate of its private notifier (distinct descriptor, same
underlying signal, so a device signal is observable through the retained
notifier); the clock device is constructed without wrapping its notifier,
which is only retained by the manager and bound to the interrupt line. -/
theorem c6_device_notifier_wrapping :
    (∀ (w : World) (vm : Option VmFd) (irq port : Nat)
        (d : Device) (ev : EventFd) (w2 : World),
      x86_64.create_com_device w vm irq port = Except.ok ((d, ev), w2) →
      deviceWrapsDuplicate d ev) ∧
    (∀ (w : World) (vm : Option VmFd) (rd : DeviceResources)
        (d : Device) (ev : EventFd) (w2 : World),
      aarch64.create_com_device w vm rd = Outcome.ok ((d, ev), w2) →
      deviceWrapsDuplicate d ev) ∧
    (∀ (w : World) (vm : Option VmFd) (rd : DeviceResources)
        (d : Device) (ev : EventFd) (w2 : World),
      aarch64.create_rtc_device w vm rd = Outcome.ok ((d, ev), w2) →
      d = Device.rtc) :=
  ⟨fun _ _ _ _ _ _ _ h => (x86_com_ok h).2.1,
   fun _ _ _ _ _ _ h => (a64_com_ok h).2.1,
   fun _ _ _ _ _ _ h => (a64_rtc_ok h).2.1⟩

/-- C6 witness: concrete serial runs on both profiles produce devices
wrapping descriptor 1 over signal 0 while the retained notifier is
descriptor 0 over signal 0, and a concrete clock run produces the bare
rtc device. -/
theorem c6_witness :
    deviceWrapsDuplicate (Device.serial ⟨1, 0, true⟩) ⟨0, 0, true⟩ ∧
    Device.rtc = Device.rtc :=
  ⟨c6_device_notifier_wrapping.1 cleanWorld none 4 0x3f8
     (Device.serial ⟨1, 0, true⟩) ⟨0, 0, true⟩
     ⟨2, 1, [], [], [], [],
      [⟨Device.serial ⟨1, 0, true⟩, [Resource.PioAddressRange 0x3f8 8]⟩], []⟩
     (by rfl),
   c6_device_notifier_wrapping.2.2 cleanWorld none ⟨[Resource.PioAddressRange 0x70 2]⟩
     Device.rtc ⟨0, 0, true⟩
     ⟨1, 1, [], [], [], [],
      [⟨Device.rtc, [Resource.PioAddressRange 0x70 2]⟩], []⟩
     (by decide)⟩

/-- C8: on the fixed profile, a clean construction with no hypervisor
handle succeeds, and the underlying signals of the exit notifier, the
COM1 notifier and the COM2 notifier are pairwise distinct. -/
theorem c8_distinct_notifier_signals (w : World) (hc : cleanScripts w) :
    ∃ m w2, x86_64.create_manager w none = Except.ok (m, w2) ∧
      m.i8042_reset_eventfd.signal ≠ m._com1_eventfd.signal ∧
      m.i8042_reset_eventfd.signal ≠ m._com2_eventfd.signal ∧
      m._com1_eventfd.signal ≠ m._com2_eventfd.signal := by
  obtain ⟨nf, ns, l1, l2, l3, l4, br, ib⟩ := w
  obtain ⟨h1, h2, h3, h4⟩ := hc
  dsimp only at h1 h2 h3 h4
  subst h1 h2 h3 h4
  refine ⟨_, _, rfl, ?_, ?_, ?_⟩ <;> (simp; try omega)

/-- C8 witness: instantiated on the clean world. -/
theorem c8_witness :
    ∃ m w2, x86_64.create_manager cleanWorld none = Except.ok (m, w2) ∧
      m.i8042_reset_eventfd.signal ≠ m._com1_eventfd.signal ∧
      m.i8042_reset_eventfd.signal ≠ m._com2_eventfd.signal ∧
      m._com1_eventfd.signal ≠ m._com2_eventfd.signal :=
  c8_distinct_notifier_signals cleanWorld (by decide)

/-- C9 counterexample: on the flexible profile the serial registration
reserves exactly the ranges of the supplied descriptor set, so a com1
descriptor with a 1-unit range at 0x3f8 is registered as such and no
8-unit range at the base is reserved, refuting the claim for that
profile. -/
theorem c9_counterexample :
    aarch64.create_manager cleanWorld none
        [(aarch64.COM1, ⟨[Resource.PioAddressRange 0x3f8 1, Resource.LegacyIrq 4]⟩),
         (aarch64.COM2, ⟨[Resource.PioAddressRange 0x2f8 1, Resource.LegacyIrq 3]⟩),
         (aarch64.RTC, ⟨[Resource.PioAddressRange 0x70 2, Resource.LegacyIrq 8]⟩)]
      = Outcome.ok
          (⟨Device.rtc, ⟨4, 2, true⟩,
            Device.serial ⟨1, 0, true⟩, ⟨0, 0, true⟩,
            Device.serial ⟨3, 1, true⟩, ⟨2, 1, true⟩⟩,
           ⟨5, 3, [], [], [], [],
            [⟨Device.serial ⟨1, 0, true⟩,
              [Resource.PioAddressRange 0x3f8 1, Resource.LegacyIrq 4]⟩,
             ⟨Device.serial ⟨3, 1, true⟩,
              [Resource.PioAddressRange 0x2f8 1, Resource.LegacyIrq 3]⟩,
             ⟨Device.rtc,
              [Resource.PioAddressRange 0x70 2, Resource.LegacyIrq 8]⟩], []⟩) ∧
    ¬ reservesEightUnitRange
        [Resource.PioAddressRange 0x3f8 1, Resource.LegacyIrq 4] 0x3f8 := by
  decide

/-- C9 amended: on the fixed profile every serial registration reserves
exactly an 8-unit range at the port base; on the flexible profile it
reserves exactly the ranges of the supplied descriptor set, which need
not contain an 8-unit range at the base. -/
theorem c9_serial_range_reservation :
    (∀ (w : World) (vm : Option VmFd) (irq port : Nat)
        (d : Device) (ev : EventFd) (w2 : World),
      x86_64.create_com_device w vm irq port = Except.ok ((d, ev), w2) →
      w2.busRegistrations = w.busRegistrations ++
        [⟨d, [Resource.PioAddressRange port 8]⟩] ∧
      reservesEightUnitRange [Resource.PioAddressRange port 8] port) ∧
    (∀ (w : World) (vm : Option VmFd) (rd : DeviceResources)
        (d : Device) (ev : EventFd) (w2 : World),
      aarch64.create_com_device w vm rd = Outcome.ok ((d, ev), w2) →
      w2.busRegistrations = w.busRegistrations ++ [⟨d, rd.get_all_resources⟩]) :=
  ⟨fun _ _ _ _ _ _ _ h =>
     ⟨(x86_com_ok h).2.2.2.2.2.1, List.mem_cons_self _ _⟩,
   fun _ _ _ _ _ _ h => (a64_com_ok h).2.2.1⟩

/-- C9 witness: a concrete fixed-profile serial run registers the 8-unit
range at 0x3f8, and a concrete flexible-profile run registers exactly the
descriptor resources. -/
theorem c9_witness :
    ((⟨2, 1, [], [], [], [],
       [⟨Device.serial ⟨1, 0, true⟩, [Resource.PioAddressRange 0x3f8 8]⟩], []⟩ :
         World).busRegistrations = cleanWorld.busRegistrations ++
        [⟨Device.serial ⟨1, 0, true⟩, [Resource.PioAddressRange 0x3f8 8]⟩] ∧
      reservesEightUnitRange [Resource.PioAddressRange 0x3f8 8] 0x3f8) ∧
    (⟨2, 1, [], [], [], [],
      [⟨Device.serial ⟨1, 0, true⟩,
        [Resource.PioAddressRange 0x3f8 8, Resource.LegacyIrq 4]⟩], []⟩ :
        World).busRegistrations = cleanWorld.busRegistrations ++
       [⟨Device.serial ⟨1, 0, true⟩,
         DeviceResources.get_all_resources
           ⟨[Resource.PioAddressRange 0x3f8 8, Resource.LegacyIrq 4]⟩⟩] :=
  ⟨c9_serial_range_reservation.1 cleanWorld none 4 0x3f8
     (Device.serial ⟨1, 0, true⟩) ⟨0, 0, true⟩
     ⟨2, 1, [], [], [], [],
      [⟨Device.serial ⟨1, 0, true⟩, [Resource.PioAddressRange 0x3f8 8]⟩], []⟩
     (by rfl),
   c9_serial_range_reservation.2 cleanWorld none
     ⟨[Resource.PioAddressRange 0x3f8 8, Resource.LegacyIrq 4]⟩
     (Device.serial ⟨1, 0, true⟩) ⟨0, 0, true⟩
     ⟨2, 1, [], [], [], [],
      [⟨Device.serial ⟨1, 0, true⟩,
        [Resource.PioAddressRange 0x3f8 8, Resource.LegacyIrq 4]⟩], []⟩
     (by decide)⟩

/-- C10 witness: with a scripted duplication failure the accessor returns
Error.EventFd of that failure; on the clean world it returns a duplicate
with the stored signal. -/
theorem c10_witness :
    (⟨⟨9, 5, true⟩, Device.serial ⟨1, 0, true⟩, ⟨0, 0, true⟩,
      Device.serial ⟨3, 1, true⟩, ⟨2, 1, true⟩⟩ :
        x86_64.LegacyDeviceManager).get_reset_eventfd
      { cleanWorld with fdCloneResults := [some ⟨3⟩] }
      = Except.error (Error.EventFd ⟨3⟩) ∧
    ((⟨0, 5, true⟩ : EventFd).signal =
        (⟨⟨9, 5, true⟩, Device.serial ⟨1, 0, true⟩, ⟨0, 0, true⟩,
          Device.serial ⟨3, 1, true⟩, ⟨2, 1, true⟩⟩ :
            x86_64.LegacyDeviceManager).i8042_reset_eventfd.signal ∧
      (⟨0, 5, true⟩ : EventFd).fd = cleanWorld.nextFd) :=
  ⟨c10_reset_accessor_error_kind.1 _ _ ⟨3⟩ [] (by decide),
   c10_reset_accessor_error_kind.2 cleanWorld
     ⟨⟨9, 5, true⟩, Device.serial ⟨1, 0, true⟩, ⟨0, 0, true⟩,
      Device.serial ⟨3, 1, true⟩, ⟨2, 1, true⟩⟩
     ⟨0, 5, true⟩ { cleanWorld with nextFd := 1 } (by rfl)⟩

end Legacy
